import Mathlib

/-!
Verification of the ethnicity-prediction notebook.

A shallow embedding of `src/ethnicitypredictions.ipynb`, a linear pandas /
scikit-learn pipeline: load a labeled spreadsheet, clean two columns,
preprocess name strings (tokenize, stopword-filter, stem), split 80/20,
vectorize with a `CountVectorizer` fitted on the training portion, train
three classifiers (Naive Bayes, Random Forest, SVM), evaluate on the test
portion, predict on an unlabeled dataset, substitute "Others" for rows
whose processed name is "nan" or "", and write one timestamped output file.

Library calls whose numeric internals are out of scope (the NLTK functions
`word_tokenize` and `PorterStemmer`, the `CountVectorizer` token pattern,
the fitting procedures of the three estimators, the seeded shuffling inside
`train_test_split`) are abstracted as function parameters, bundled in
`ModelParams`; the dataflow of the notebook around them is embedded
exactly.
-/

namespace EthnicityPredictions

/-- A pandas cell value, as far as the notebook distinguishes them:
strings, booleans (the `Ethnicity` column is compared against `False`),
integers (a notebook comment says `ShippingName` holds integers for
some rows) and NaN (missing values). -/
inductive PyVal where
  | bool : Bool → PyVal
  | str : String → PyVal
  | int : Int → PyVal
  | nan : PyVal
deriving DecidableEq

/-- Python `astype(str)` applied to one cell: the builtin `str` on the
value.  pandas renders a missing value (`NaN`) as the string `"nan"`. -/
def pyStr : PyVal → String
  | .bool true => "True"
  | .bool false => "False"
  | .str s => s
  | .int n => toString n
  | .nan => "nan"

/-- A row of the labeled training spreadsheet
(`data = pd.read_excel(r"data\jan23-jun23_ethnic.xlsx")`): the two columns
the notebook touches, plus all remaining columns bundled as `rest`. -/
structure RawRow (α : Type) where
  ShippingName : PyVal
  Ethnicity : PyVal
  rest : α
deriving DecidableEq

/-- A training row after the `astype(str)` assignment to the
`ShippingName` column: that column now holds strings. -/
structure CleanRow (α : Type) where
  ShippingName : String
  Ethnicity : PyVal
  rest : α
deriving DecidableEq

/-- The `astype(str)` step on one row: only the `ShippingName` column changes. -/
def astypeShippingName {α : Type} (r : RawRow α) : CleanRow α :=
  ⟨pyStr r.ShippingName, r.Ethnicity, r.rest⟩

/-- The cleaning cell of the notebook: the `astype(str)` assignment to the
`ShippingName` column, followed by
`data = data[data["Ethnicity"] != False]`. -/
def cleanData {α : Type} (rows : List (RawRow α)) : List (CleanRow α) :=
  (rows.map astypeShippingName).filter
    (fun r => decide (r.Ethnicity ≠ PyVal.bool false))

/-- The text-processing primitives the notebook imports from NLTK and the
Python standard library, abstracted: `word_tokenize`, `PorterStemmer().stem`,
the English stopword set, `str.isalpha` and `str.lower`. -/
structure TextParams where
  word_tokenize : String → List String
  stem : String → String
  stop_words : List String
  isalpha : String → Bool
  lower : String → String

/-- The function `preprocess_text` of the notebook:
```
def preprocess_text(text):
    words = word_tokenize(text)
    words = [stemmer.stem(word) for word in words
             if word.isalpha() and word.lower() not in stop_words]
    return " ".join(words)
``` -/
def preprocess_text (T : TextParams) (text : String) : String :=
  String.intercalate " "
    (((T.word_tokenize text).filter
        (fun word => T.isalpha word && !(T.stop_words.contains (T.lower word)))).map
      T.stem)

/-- Name normalization as the spec describes it, written from its words:
the space-separated join of the stemmed forms of exactly those
word-tokenized tokens that are purely alphabetic and whose lowercase form
is not a stopword, in their original order. -/
def preprocess_text_spec (T : TextParams) (text : String) : String :=
  String.intercalate " "
    (((T.word_tokenize text).filter
        (fun word => decide (T.isalpha word = true ∧ T.lower word ∉ T.stop_words))).map
      T.stem)

/-- Lexicographic order on code-point sequences: the Python `<=` on `str`,
under which sklearn stores the fitted vocabulary sorted. -/
def lexLe : List Char → List Char → Bool
  | [], _ => true
  | _ :: _, [] => false
  | c :: cs, d :: ds =>
    if c < d then true else if d < c then false else lexLe cs ds

/-- Lexicographic order on strings. -/
def strLe (a b : String) : Bool := lexLe a.data b.data

/-- Insert a string into a sorted list of strings. -/
def insertSorted (x : String) : List String → List String
  | [] => [x]
  | y :: ys => if strLe x y then x :: y :: ys else y :: insertSorted x ys

/-- Insertion sort of a list of strings under `strLe`. -/
def sortStrings : List String → List String
  | [] => []
  | x :: xs => insertSorted x (sortStrings xs)

/-- The fitted state of the sklearn `CountVectorizer`: the vocabulary
learned by `fit_transform` on the training documents. -/
structure CountVectorizerModel where
  vocabulary : List String
deriving DecidableEq

/-- Fitting `CountVectorizer()` on the training documents: the vocabulary
is the set of distinct tokens of the training documents, stored sorted
alphabetically as sklearn does; `cvTok` abstracts the analyzer of the
vectorizer (lowercasing plus the default `\w\w+` token pattern). -/
def CountVectorizer.fit (cvTok : String → List String) (docs : List String) :
    CountVectorizerModel :=
  ⟨sortStrings ((docs.flatMap cvTok).dedup)⟩

/-- Applying `vectorizer.transform` to one document: one entry per
vocabulary token, counting the occurrences of that token in the document.
Tokens of the document outside the vocabulary produce no entry. -/
def CountVectorizerModel.transform (M : CountVectorizerModel)
    (cvTok : String → List String) (doc : String) : List Nat :=
  M.vocabulary.map (fun t => (cvTok doc).count t)

/-- With `test_size=0.2`, sklearn `train_test_split` takes
`ceil(0.2 * n)` samples for the test set. -/
def testCount (n : Nat) : Nat := (n + 4) / 5

/-- Result of `train_test_split`. -/
structure SplitResult (γ : Type) where
  train : List γ
  test : List γ

/-- The sklearn call `train_test_split(..., test_size=0.2, random_state=42)`:
shuffle the rows with the seeded permutation, take the first
`ceil(0.2 * n)` shuffled rows as the test set and the rest as the
training set.  `shuffle` abstracts the seeded permutation.  This embeds
the successful path only: sklearn additionally raises `ValueError` when
one of the two portions would be empty (for `test_size=0.2`, on datasets
of fewer than two rows), so facts about concrete runs are only meaningful
on inputs where both portions are nonempty. -/
def train_test_split {γ : Type} (shuffle : List γ → List γ) (l : List γ) :
    SplitResult γ :=
  let shuffled := shuffle l
  { train := shuffled.drop (testCount l.length)
    test := shuffled.take (testCount l.length) }

/-- The sklearn `accuracy_score(y_true, y_pred)`: the fraction of
positions where prediction and truth agree. -/
def accuracy_score (yTrue yPred : List PyVal) : ℚ :=
  (((yTrue.zip yPred).countP (fun pr => decide (pr.1 = pr.2)) : ℚ)) / (yTrue.length : ℚ)

/-- The notebook list `exceptional_cases = ["nan", ""]`. -/
def exceptional_cases : List String := ["nan", ""]

/-- One iteration of the substitution loop:
`preds[new_data["processed_name"] == case] = "Others"` — every entry of
the prediction array at a row whose processed name equals `case` is
overwritten with `"Others"`. -/
def substituteCase (processed : List String) (case : String)
    (preds : List PyVal) : List PyVal :=
  (processed.zip preds).map
    (fun pr => if pr.1 = case then PyVal.str "Others" else pr.2)

/-- The whole loop `for case in exceptional_cases: ...` applied to one
prediction array. -/
def applyExceptionalCases (processed : List String) (preds : List PyVal) :
    List PyVal :=
  exceptional_cases.foldl (fun p c => substituteCase processed c p) preds

/-- A row of the unlabeled dataset
(`new_data = pd.read_excel("data/HJecommQ3blankethnicity.xlsx")`): the
`shipping_firstname` column the notebook reads, plus all other columns as
`rest`. -/
structure NewRow (β : Type) where
  shipping_firstname : PyVal
  rest : β
deriving DecidableEq

/-- A row of the exported spreadsheet: the unlabeled row (after
`astype(str)` and with its added `processed_name` column) together with
the three added prediction columns. -/
structure OutputRow (β : Type) where
  shipping_firstname : String
  processed_name : String
  rest : β
  Predicted_Ethnicity_NB : PyVal
  Predicted_Ethnicity_RF : PyVal
  Predicted_Ethnicity_SVM : PyVal
deriving DecidableEq

/-- A file written by `to_excel`. -/
structure OutputFile (β : Type) where
  filename : String
  rows : List (OutputRow β)
deriving DecidableEq

/-- The library components the notebook calls, abstracted: the NLTK text
primitives, the `CountVectorizer` analyzer, the seeded shuffle inside
`train_test_split` (a function of the `random_state` seed), and the three
fitting procedures of the estimators (`MultinomialNB` takes no seed;
`RandomForestClassifier` and `SVC` take their `random_state` seed).  A
fitted classifier is a function from a count vector to a label. -/
structure ModelParams where
  text : TextParams

  cvTok : String → List String
  shuffle : Nat → List (String × PyVal) → List (String × PyVal)
  fitNB : List (List Nat) → List PyVal → (List Nat → PyVal)
  fitRF : Nat → List (List Nat) → List PyVal → (List Nat → PyVal)
  fitSVM : Nat → List (List Nat) → List PyVal → (List Nat → PyVal)

/-- Every intermediate value of the notebook that the verification refers
to, named after the variables of the notebook itself. -/
structure RunResult (α β : Type) where
  cleaned : List (CleanRow α)
  pairs : List (String × PyVal)
  splitTrain : List (String × PyVal)
  splitTest : List (String × PyVal)
  X_train : List String
  X_test : List String
  y_train : List PyVal
  y_test : List PyVal
  vectorizer : CountVectorizerModel
  X_train_vectorized : List (List Nat)
  X_test_vectorized : List (List Nat)
  classifier : List Nat → PyVal
  rf_classifier : List Nat → PyVal
  svm_classifier : List Nat → PyVal
  predictions : List PyVal
  rf_predictions : List PyVal
  svm_predictions : List PyVal
  accuracy : ℚ
  rf_accuracy : ℚ
  svm_accuracy : ℚ
  processed_name_new : List String
  new_data_vectorized : List (List Nat)
  new_predictions_nb_raw : List PyVal
  new_predictions_rf_raw : List PyVal
  new_predictions_svm_raw : List PyVal
  new_predictions_nb : List PyVal
  new_predictions_rf : List PyVal
  new_predictions_svm : List PyVal
  outputFiles : List (OutputFile β)

/-- The notebook, top to bottom: clean the labeled data, preprocess the
names, split 80/20 with seed 42, fit the vectorizer on the training
portion, train the three classifiers on the vectorized training portion
(Random Forest and SVM with `random_state=42`), evaluate each on the
vectorized test portion, preprocess and vectorize the unlabeled data,
predict with all three classifiers, overwrite predictions of
`"nan"`/`""` rows with `"Others"`, append the three prediction columns
and export a single timestamped spreadsheet. -/
def run {α β : Type} (P : ModelParams) (data : List (RawRow α))
    (newRaw : List (NewRow β)) (current_datetime : String) : RunResult α β :=
  let cleaned := cleanData data
  let pairs := (cleaned.map (fun r => preprocess_text P.text r.ShippingName)).zip
      (cleaned.map (fun r => r.Ethnicity))
  let split := train_test_split (P.shuffle 42) pairs
  let X_train := split.train.map Prod.fst
  let y_train := split.train.map Prod.snd
  let X_test := split.test.map Prod.fst
  let y_test := split.test.map Prod.snd
  let vectorizer := CountVectorizer.fit P.cvTok X_train
  let X_train_vectorized := X_train.map (vectorizer.transform P.cvTok)
  let X_test_vectorized := X_test.map (vectorizer.transform P.cvTok)
  let classifier := P.fitNB X_train_vectorized y_train
  let predictions := X_test_vectorized.map classifier
  let rf_classifier := P.fitRF 42 X_train_vectorized y_train
  let rf_predictions := X_test_vectorized.map rf_classifier
  let svm_classifier := P.fitSVM 42 X_train_vectorized y_train
  let svm_predictions := X_test_vectorized.map svm_classifier
  let processed_name_new :=
    newRaw.map (fun r => preprocess_text P.text (pyStr r.shipping_firstname))
  let new_data_vectorized := processed_name_new.map (vectorizer.transform P.cvTok)
  let nbRaw := new_data_vectorized.map classifier
  let rfRaw := new_data_vectorized.map rf_classifier
  let svmRaw := new_data_vectorized.map svm_classifier
  let nbFinal := applyExceptionalCases processed_name_new nbRaw
  let rfFinal := applyExceptionalCases processed_name_new rfRaw
  let svmFinal := applyExceptionalCases processed_name_new svmRaw
  let outRows :=
    (newRaw.zip (nbFinal.zip (rfFinal.zip svmFinal))).map
      (fun x =>
        { shipping_firstname := pyStr x.1.shipping_firstname
          processed_name := preprocess_text P.text (pyStr x.1.shipping_firstname)
          rest := x.1.rest
          Predicted_Ethnicity_NB := x.2.1
          Predicted_Ethnicity_RF := x.2.2.1
          Predicted_Ethnicity_SVM := x.2.2.2 })
  { cleaned := cleaned
    pairs := pairs
    splitTrain := split.train
    splitTest := split.test
    X_train := X_train
    X_test := X_test
    y_train := y_train
    y_test := y_test
    vectorizer := vectorizer
    X_train_vectorized := X_train_vectorized
    X_test_vectorized := X_test_vectorized
    classifier := classifier
    rf_classifier := rf_classifier
    svm_classifier := svm_classifier
    predictions := predictions
    rf_predictions := rf_predictions
    svm_predictions := svm_predictions
    accuracy := accuracy_score y_test predictions
    rf_accuracy := accuracy_score y_test rf_predictions
    svm_accuracy := accuracy_score y_test svm_predictions
    processed_name_new := processed_name_new
    new_data_vectorized := new_data_vectorized
    new_predictions_nb_raw := nbRaw
    new_predictions_rf_raw := rfRaw
    new_predictions_svm_raw := svmRaw
    new_predictions_nb := nbFinal
    new_predictions_rf := rfFinal
    new_predictions_svm := svmFinal
    outputFiles :=
      [{ filename :=
           "Data/Predictions/ecomm_demo_2023Q3_predicted_ethnicities_" ++
             current_datetime ++ ".xlsx"
         rows := outRows }] }

/-- The four ethnicity classes of the dataset (README: "Classes: 4
(Malay, Indian, Chinese, Others)"). -/
def fourClasses : List PyVal :=
  [PyVal.str "Malay", PyVal.str "Indian", PyVal.str "Chinese", PyVal.str "Others"]

/-- A small concrete instantiation of the abstracted text primitives, used
to evaluate the theorems on closed inputs: each nonempty string is a
single token, stemming is the identity, and `"the"` is the only stopword. -/
def demoText : TextParams where
  word_tokenize := fun s => if s = "" then [] else [s]
  stem := fun w => w
  stop_words := ["the"]
  isalpha := fun w => !w.data.isEmpty && w.data.all Char.isAlpha
  lower := fun s => s

/-- A concrete instantiation of the abstracted library components: the
identity shuffle, and classifiers that predict the first training label
(hence always a label seen in training). -/
def demoParams : ModelParams where
  text := demoText
  cvTok := fun s => if s = "" then [] else [s]
  shuffle := fun _ l => l
  fitNB := fun _ y _ => y.headD (PyVal.str "Others")
  fitRF := fun _ _ y _ => y.headD (PyVal.str "Others")
  fitSVM := fun _ _ y _ => y.headD (PyVal.str "Others")

/-- A concrete labeled table: five usable rows and one row whose
`Ethnicity` is `False` (removed by cleaning). -/
def demoData : List (RawRow Unit) :=
  [⟨PyVal.str "Ali", PyVal.str "Malay", ()⟩,
   ⟨PyVal.str "Wei", PyVal.str "Chinese", ()⟩,
   ⟨PyVal.str "Raj", PyVal.str "Indian", ()⟩,
   ⟨PyVal.bool false, PyVal.bool false, ()⟩,
   ⟨PyVal.str "Tan", PyVal.str "Chinese", ()⟩,
   ⟨PyVal.str "Kumar", PyVal.str "Indian", ()⟩]

/-- A concrete unlabeled table: one missing name (processed to `"nan"`)
and one ordinary name. -/
def demoNew : List (NewRow Unit) :=
  [⟨PyVal.nan, ()⟩, ⟨PyVal.str "Ali", ()⟩]

/-- Claim C7: Cleaning the loaded training data touches exactly two columns:
every `ShippingName` value is coerced to a string, and every row whose
`Ethnicity` value equals `False` is removed; no other rows are removed and
no other columns are modified: the cleaned table is exactly the rows whose
`Ethnicity` is not `False`, in order, with only `ShippingName` rewritten
(to `pyStr` of its old value) and `Ethnicity` and every other column kept. -/
theorem cleanData_removes_false_and_strings_names {α : Type} (rows : List (RawRow α)) :
    cleanData rows =
      (rows.filter (fun r => decide (r.Ethnicity ≠ PyVal.bool false))).map
        (fun r => ⟨pyStr r.ShippingName, r.Ethnicity, r.rest⟩) := by
  unfold cleanData
  rw [List.filter_map]
  rfl

/-- Claim C2: For every input string, `preprocess_text` returns the
space-separated join of the stemmed forms of exactly those word-tokenized
tokens that are purely alphabetic and whose lowercase form is not a
stopword, preserving the original order of the tokens; all other tokens
are dropped.  Stated as agreement with `preprocess_text_spec`, the
definition transcribed from the words of the spec. -/
theorem preprocess_text_eq_spec (T : TextParams) (text : String) :
    preprocess_text T text = preprocess_text_spec T text := by
  unfold preprocess_text preprocess_text_spec
  congr 1
  congr 1
  apply List.filter_congr
  intro w _
  by_cases ha : T.isalpha w
  · by_cases hs : T.lower w ∈ T.stop_words
    · simp [ha, hs]
    · simp [ha, hs]
  · simp [ha]

theorem substituteCase_length (proc : List String) (c : String) (preds : List PyVal) :
    (substituteCase proc c preds).length = min proc.length preds.length := by
  simp [substituteCase]

theorem applyExceptionalCases_eq (proc : List String) (preds : List PyVal) :
    applyExceptionalCases proc preds =
      substituteCase proc "" (substituteCase proc "nan" preds) := rfl

theorem applyExceptionalCases_length (proc : List String) (preds : List PyVal) :
    (applyExceptionalCases proc preds).length = min proc.length preds.length := by
  rw [applyExceptionalCases_eq, substituteCase_length, substituteCase_length]
  omega

theorem substituteCase_getElem (proc : List String) (c : String) (preds : List PyVal)
    (i : Nat) (h1 : i < proc.length) (h2 : i < preds.length)
    (h : i < (substituteCase proc c preds).length) :
    (substituteCase proc c preds)[i] =
      if proc[i] = c then PyVal.str "Others" else preds[i] := by
  simp [substituteCase, List.getElem_map, List.getElem_zip]

theorem applyExceptionalCases_getElem (proc : List String) (preds : List PyVal)
    (i : Nat) (h1 : i < proc.length) (h2 : i < preds.length)
    (h : i < (applyExceptionalCases proc preds).length) :
    (applyExceptionalCases proc preds)[i] =
      if proc[i] = "nan" ∨ proc[i] = "" then PyVal.str "Others" else preds[i] := by
  have hs : i < (substituteCase proc "nan" preds).length := by
    rw [substituteCase_length]; omega
  have h' : i < (substituteCase proc "" (substituteCase proc "nan" preds)).length := by
    rw [substituteCase_length, substituteCase_length]; omega
  have e : (applyExceptionalCases proc preds)[i] =
      (substituteCase proc "" (substituteCase proc "nan" preds))[i] := by
    congr 1
  rw [e, substituteCase_getElem proc "" _ i h1 hs h',
    substituteCase_getElem proc "nan" preds i h1 h2 hs]
  by_cases hn : proc[i] = "nan"
  · simp [hn]
  · by_cases he : proc[i] = ""
    · simp [hn, he]
    · simp [hn, he]

theorem applyExceptionalCases_mem (proc : List String) (preds : List PyVal)
    (x : PyVal) (hx : x ∈ applyExceptionalCases proc preds) :
    x = PyVal.str "Others" ∨ x ∈ preds := by
  rw [applyExceptionalCases_eq] at hx
  simp only [substituteCase, List.mem_map] at hx
  obtain ⟨p, hp, hpx⟩ := hx
  by_cases hc : p.1 = ""
  · left; rw [← hpx]; simp [hc]
  · have : x = p.2 := by rw [← hpx]; simp [hc]
    subst this
    have hp2 := (List.of_mem_zip hp).2
    simp only [List.mem_map] at hp2
    obtain ⟨q, hq, hqx⟩ := hp2
    by_cases hc2 : q.1 = "nan"
    · left; rw [← hqx]; simp [hc2]
    · have : p.2 = q.2 := by rw [← hqx]; simp [hc2]
      rw [this]
      exact Or.inr (List.of_mem_zip hq).2

theorem run_processed_name_new_length {α β : Type} (P : ModelParams)
    (data : List (RawRow α)) (newRaw : List (NewRow β)) (dt : String) :
    (run P data newRaw dt).processed_name_new.length = newRaw.length := by
  simp [run]

theorem run_new_predictions_raw_length {α β : Type} (P : ModelParams)
    (data : List (RawRow α)) (newRaw : List (NewRow β)) (dt : String) :
    (run P data newRaw dt).new_predictions_nb_raw.length = newRaw.length ∧
    (run P data newRaw dt).new_predictions_rf_raw.length = newRaw.length ∧
    (run P data newRaw dt).new_predictions_svm_raw.length = newRaw.length := by
  refine ⟨?_, ?_, ?_⟩ <;> simp [run]

theorem run_new_predictions_length {α β : Type} (P : ModelParams)
    (data : List (RawRow α)) (newRaw : List (NewRow β)) (dt : String) :
    (run P data newRaw dt).new_predictions_nb.length = newRaw.length ∧
    (run P data newRaw dt).new_predictions_rf.length = newRaw.length ∧
    (run P data newRaw dt).new_predictions_svm.length = newRaw.length := by
  refine ⟨?_, ?_, ?_⟩ <;> simp [run, applyExceptionalCases_length]

/-- Claim C1: For every row of the unlabeled dataset whose processed name
equals `"nan"` or `""`, the emitted prediction for that row is `"Others"`
in all three prediction outputs (Naive Bayes, Random Forest and SVM),
overriding whatever the classifiers predicted. -/
theorem nan_or_empty_new_rows_emit_Others {α β : Type} (P : ModelParams)
    (data : List (RawRow α)) (newRaw : List (NewRow β)) (dt : String) (i : Nat)
    (h : i < (run P data newRaw dt).processed_name_new.length)
    (hcase : (run P data newRaw dt).processed_name_new.getD i "x" = "nan" ∨
      (run P data newRaw dt).processed_name_new.getD i "x" = "") :
    (run P data newRaw dt).new_predictions_nb.getD i PyVal.nan = PyVal.str "Others" ∧
    (run P data newRaw dt).new_predictions_rf.getD i PyVal.nan = PyVal.str "Others" ∧
    (run P data newRaw dt).new_predictions_svm.getD i PyVal.nan = PyVal.str "Others" := by
  have hlen := run_processed_name_new_length P data newRaw dt
  have key : ∀ raw : List PyVal, raw.length = newRaw.length →
      (applyExceptionalCases (run P data newRaw dt).processed_name_new raw).getD i
          PyVal.nan = PyVal.str "Others" := by
    intro raw hr
    have hi2 : i < raw.length := by omega
    have hb : i < (applyExceptionalCases
        (run P data newRaw dt).processed_name_new raw).length := by
      rw [applyExceptionalCases_length]; omega
    rw [List.getD_eq_getElem _ _ hb,
      applyExceptionalCases_getElem _ _ i h hi2 hb]
    have hc : (run P data newRaw dt).processed_name_new[i] = "nan" ∨
        (run P data newRaw dt).processed_name_new[i] = "" := by
      rw [← List.getD_eq_getElem (run P data newRaw dt).processed_name_new "x" h]
      exact hcase
    rw [if_pos hc]
  obtain ⟨r1, r2, r3⟩ := run_new_predictions_raw_length P data newRaw dt
  exact ⟨key _ r1, key _ r2, key _ r3⟩

theorem nan_or_empty_new_rows_emit_Others_witness :
    0 < (run demoParams demoData demoNew "t").processed_name_new.length ∧
    ((run demoParams demoData demoNew "t").processed_name_new.getD 0 "x" = "nan" ∨
      (run demoParams demoData demoNew "t").processed_name_new.getD 0 "x" = "") ∧
    ((run demoParams demoData demoNew "t").new_predictions_nb.getD 0 PyVal.nan =
        PyVal.str "Others" ∧
      (run demoParams demoData demoNew "t").new_predictions_rf.getD 0 PyVal.nan =
        PyVal.str "Others" ∧
      (run demoParams demoData demoNew "t").new_predictions_svm.getD 0 PyVal.nan =
        PyVal.str "Others") :=
  ⟨by decide, by decide,
    nan_or_empty_new_rows_emit_Others demoParams demoData demoNew "t" 0
      (by decide) (by decide)⟩

/-- Claim C9: The special-case substitution modifies only the entries of
the three new-data prediction arrays at rows whose processed name is
`"nan"` or `""`: for every other row the final emitted prediction equals
the raw classifier prediction, and the substitution is never applied to
the test-set predictions used for the evaluation metrics — those remain
the raw classifier outputs on the vectorized test set. -/
theorem substitution_frame_effect {α β : Type} (P : ModelParams)
    (data : List (RawRow α)) (newRaw : List (NewRow β)) (dt : String)
    (i : Nat) (d : PyVal)
    (h : i < (run P data newRaw dt).processed_name_new.length)
    (hni : (run P data newRaw dt).processed_name_new.getD i "nan" ∉ exceptional_cases) :
    ((run P data newRaw dt).new_predictions_nb.getD i d =
        (run P data newRaw dt).new_predictions_nb_raw.getD i d ∧
      (run P data newRaw dt).new_predictions_rf.getD i d =
        (run P data newRaw dt).new_predictions_rf_raw.getD i d ∧
      (run P data newRaw dt).new_predictions_svm.getD i d =
        (run P data newRaw dt).new_predictions_svm_raw.getD i d) ∧
    ((run P data newRaw dt).predictions =
        (run P data newRaw dt).X_test_vectorized.map (run P data newRaw dt).classifier ∧
      (run P data newRaw dt).rf_predictions =
        (run P data newRaw dt).X_test_vectorized.map (run P data newRaw dt).rf_classifier ∧
      (run P data newRaw dt).svm_predictions =
        (run P data newRaw dt).X_test_vectorized.map (run P data newRaw dt).svm_classifier ∧
      (run P data newRaw dt).accuracy =
        accuracy_score (run P data newRaw dt).y_test (run P data newRaw dt).predictions ∧
      (run P data newRaw dt).rf_accuracy =
        accuracy_score (run P data newRaw dt).y_test (run P data newRaw dt).rf_predictions ∧
      (run P data newRaw dt).svm_accuracy =
        accuracy_score (run P data newRaw dt).y_test (run P data newRaw dt).svm_predictions) := by
  have hlen := run_processed_name_new_length P data newRaw dt
  have hc : ¬((run P data newRaw dt).processed_name_new[i] = "nan" ∨
      (run P data newRaw dt).processed_name_new[i] = "") := by
    rw [← List.getD_eq_getElem (run P data newRaw dt).processed_name_new "nan" h] at *
    intro hor
    apply hni
    rcases hor with h1 | h1 <;> rw [h1] <;> simp [exceptional_cases]
  have key : ∀ raw : List PyVal, raw.length = newRaw.length →
      (applyExceptionalCases (run P data newRaw dt).processed_name_new raw).getD i d =
        raw.getD i d := by
    intro raw hr
    have hi2 : i < raw.length := by omega
    have hb : i < (applyExceptionalCases
        (run P data newRaw dt).processed_name_new raw).length := by
      rw [applyExceptionalCases_length]; omega
    rw [List.getD_eq_getElem _ _ hb,
      applyExceptionalCases_getElem _ _ i h hi2 hb, if_neg hc,
      List.getD_eq_getElem _ _ hi2]
  obtain ⟨r1, r2, r3⟩ := run_new_predictions_raw_length P data newRaw dt
  exact ⟨⟨key _ r1, key _ r2, key _ r3⟩, rfl, rfl, rfl, rfl, rfl, rfl⟩

theorem substitution_frame_effect_witness :
    1 < (run demoParams demoData demoNew "t").processed_name_new.length ∧
    (run demoParams demoData demoNew "t").processed_name_new.getD 1 "nan" ∉
      exceptional_cases ∧
    (run demoParams demoData demoNew "t").new_predictions_nb.getD 1 PyVal.nan =
      (run demoParams demoData demoNew "t").new_predictions_nb_raw.getD 1 PyVal.nan :=
  ⟨by decide, by decide,
    (substitution_frame_effect demoParams demoData demoNew "t" 1 PyVal.nan
      (by decide) (by decide)).1.1⟩

theorem run_outputFiles_eq {α β : Type} (P : ModelParams) (data : List (RawRow α))
    (newRaw : List (NewRow β)) (dt : String) :
    (run P data newRaw dt).outputFiles =
      [{ filename := "Data/Predictions/ecomm_demo_2023Q3_predicted_ethnicities_" ++
           dt ++ ".xlsx"
         rows := (newRaw.zip ((run P data newRaw dt).new_predictions_nb.zip
             ((run P data newRaw dt).new_predictions_rf.zip
               (run P data newRaw dt).new_predictions_svm))).map
           (fun x =>
             { shipping_firstname := pyStr x.1.shipping_firstname
               processed_name := preprocess_text P.text (pyStr x.1.shipping_firstname)
               rest := x.1.rest
               Predicted_Ethnicity_NB := x.2.1
               Predicted_Ethnicity_RF := x.2.2.1
               Predicted_Ethnicity_SVM := x.2.2.2 }) }] := rfl

theorem outRows_columns {β : Type} (T : TextParams) (newRaw : List (NewRow β))
    (a b c : List PyVal) (rows : List (OutputRow β))
    (hrows : rows = (newRaw.zip (a.zip (b.zip c))).map
      (fun x =>
        { shipping_firstname := pyStr x.1.shipping_firstname
          processed_name := preprocess_text T (pyStr x.1.shipping_firstname)
          rest := x.1.rest
          Predicted_Ethnicity_NB := x.2.1
          Predicted_Ethnicity_RF := x.2.2.1
          Predicted_Ethnicity_SVM := x.2.2.2 }))
    (ha : a.length = newRaw.length) (hb : b.length = newRaw.length)
    (hc : c.length = newRaw.length) :
    rows.length = newRaw.length ∧
    rows.map (fun r => r.rest) = newRaw.map (fun r => r.rest) ∧
    rows.map (fun r => r.shipping_firstname) =
      newRaw.map (fun r => pyStr r.shipping_firstname) ∧
    rows.map (fun r => r.processed_name) =
      newRaw.map (fun r => preprocess_text T (pyStr r.shipping_firstname)) ∧
    rows.map (fun r => r.Predicted_Ethnicity_NB) = a ∧
    rows.map (fun r => r.Predicted_Ethnicity_RF) = b ∧
    rows.map (fun r => r.Predicted_Ethnicity_SVM) = c := by
  subst hrows
  refine ⟨by simp [List.length_zip]; omega, ?_, ?_, ?_, ?_, ?_, ?_⟩
  all_goals
    refine List.ext_getElem (by simp [List.length_zip]; omega) ?_
  all_goals
    intro i h1 h2
    simp [List.getElem_map, List.getElem_zip]

theorem run_processed_name_new_eq {α β : Type} (P : ModelParams)
    (data : List (RawRow α)) (newRaw : List (NewRow β)) (dt : String) :
    (run P data newRaw dt).processed_name_new =
      newRaw.map (fun r => preprocess_text P.text (pyStr r.shipping_firstname)) := rfl

/-- Claim C6: The pipeline writes exactly one predictions file, whose
filename embeds the date and time of the run, and which contains, for
every row of the unlabeled dataset, that row (its other columns and its
stringified `shipping_firstname` and `processed_name`) together with three
added prediction columns, one per model. -/
theorem single_timestamped_output_file {α β : Type} (P : ModelParams)
    (data : List (RawRow α)) (newRaw : List (NewRow β)) (dt : String) :
    (run P data newRaw dt).outputFiles.length = 1 ∧
    (run P data newRaw dt).outputFiles.map (fun f => f.filename) =
      ["Data/Predictions/ecomm_demo_2023Q3_predicted_ethnicities_" ++ dt ++ ".xlsx"] ∧
    (run P data newRaw dt).outputFiles.map (fun f => f.rows.length) =
      [newRaw.length] ∧
    (run P data newRaw dt).outputFiles.map
        (fun f => f.rows.map (fun r => r.rest)) =
      [newRaw.map (fun r => r.rest)] ∧
    (run P data newRaw dt).outputFiles.map
        (fun f => f.rows.map (fun r => r.shipping_firstname)) =
      [newRaw.map (fun r => pyStr r.shipping_firstname)] ∧
    (run P data newRaw dt).outputFiles.map
        (fun f => f.rows.map (fun r => r.processed_name)) =
      [(run P data newRaw dt).processed_name_new] ∧
    (run P data newRaw dt).outputFiles.map
        (fun f => f.rows.map (fun r => r.Predicted_Ethnicity_NB)) =
      [(run P data newRaw dt).new_predictions_nb] ∧
    (run P data newRaw dt).outputFiles.map
        (fun f => f.rows.map (fun r => r.Predicted_Ethnicity_RF)) =
      [(run P data newRaw dt).new_predictions_rf] ∧
    (run P data newRaw dt).outputFiles.map
        (fun f => f.rows.map (fun r => r.Predicted_Ethnicity_SVM)) =
      [(run P data newRaw dt).new_predictions_svm] := by
  obtain ⟨f1, f2, f3⟩ := run_new_predictions_length P data newRaw dt
  obtain ⟨hL, hrest, hship, hproc, hnb, hrf, hsvm⟩ :=
    outRows_columns P.text newRaw
      (run P data newRaw dt).new_predictions_nb
      (run P data newRaw dt).new_predictions_rf
      (run P data newRaw dt).new_predictions_svm _ rfl f1 f2 f3
  rw [run_outputFiles_eq]
  refine ⟨rfl, rfl, ?_, ?_, ?_, ?_, ?_, ?_, ?_⟩ <;>
    simp only [List.map_cons, List.map_nil]
  · rw [hL]
  · rw [hrest]
  · rw [hship]
  · rw [hproc, run_processed_name_new_eq]
  · rw [hnb]
  · rw [hrf]
  · rw [hsvm]

/-- Claim C10: The pipeline is deterministic as a function of its two input
datasets: the train/test split and the Random Forest and SVM classifiers
are seeded with the fixed `random_state` 42, so two runs on identical
inputs produce identical predictions and metrics; only the timestamp
embedded in the output filename may differ. -/
theorem run_deterministic_up_to_timestamp {α β : Type} (P : ModelParams)
    (data : List (RawRow α)) (newRaw : List (NewRow β)) (t1 t2 : String) :
    (run P data newRaw t1).predictions = (run P data newRaw t2).predictions ∧
    (run P data newRaw t1).rf_predictions = (run P data newRaw t2).rf_predictions ∧
    (run P data newRaw t1).svm_predictions = (run P data newRaw t2).svm_predictions ∧
    (run P data newRaw t1).accuracy = (run P data newRaw t2).accuracy ∧
    (run P data newRaw t1).rf_accuracy = (run P data newRaw t2).rf_accuracy ∧
    (run P data newRaw t1).svm_accuracy = (run P data newRaw t2).svm_accuracy ∧
    (run P data newRaw t1).new_predictions_nb = (run P data newRaw t2).new_predictions_nb ∧
    (run P data newRaw t1).new_predictions_rf = (run P data newRaw t2).new_predictions_rf ∧
    (run P data newRaw t1).new_predictions_svm = (run P data newRaw t2).new_predictions_svm ∧
    (run P data newRaw t1).outputFiles.map (fun f => f.rows) =
      (run P data newRaw t2).outputFiles.map (fun f => f.rows) ∧
    (run P data newRaw t1).outputFiles.map (fun f => f.filename) =
      ["Data/Predictions/ecomm_demo_2023Q3_predicted_ethnicities_" ++ t1 ++ ".xlsx"] ∧
    (run P data newRaw t2).outputFiles.map (fun f => f.filename) =
      ["Data/Predictions/ecomm_demo_2023Q3_predicted_ethnicities_" ++ t2 ++ ".xlsx"] ∧
    (run P data newRaw t1).splitTest =
      (train_test_split (P.shuffle 42) (run P data newRaw t1).pairs).test ∧
    (run P data newRaw t1).rf_classifier =
      P.fitRF 42 (run P data newRaw t1).X_train_vectorized (run P data newRaw t1).y_train ∧
    (run P data newRaw t1).svm_classifier =
      P.fitSVM 42 (run P data newRaw t1).X_train_vectorized (run P data newRaw t1).y_train :=
  ⟨rfl, rfl, rfl, rfl, rfl, rfl, rfl, rfl, rfl, rfl, rfl, rfl, rfl, rfl, rfl⟩

theorem train_test_split_spec {γ : Type} (shuffle : List γ → List γ)
    (l : List γ) (hs : (shuffle l).Perm l) :
    ((train_test_split shuffle l).train ++ (train_test_split shuffle l).test).Perm l ∧
    (train_test_split shuffle l).test.length = testCount l.length ∧
    (train_test_split shuffle l).train.length = l.length - testCount l.length ∧
    (l.Nodup → (train_test_split shuffle l).train.Disjoint (train_test_split shuffle l).test) := by
  have htc : testCount l.length ≤ l.length := by unfold testCount; omega
  have hlen : (shuffle l).length = l.length := hs.length_eq
  refine ⟨?_, ?_, ?_, ?_⟩
  · have h1 : ((shuffle l).drop (testCount l.length) ++
        (shuffle l).take (testCount l.length)).Perm
        ((shuffle l).take (testCount l.length) ++
          (shuffle l).drop (testCount l.length)) := List.perm_append_comm
    have h2 : (shuffle l).take (testCount l.length) ++
        (shuffle l).drop (testCount l.length) = shuffle l :=
      List.take_append_drop _ _
    have h3 : ((shuffle l).take (testCount l.length) ++
        (shuffle l).drop (testCount l.length)).Perm l := by
      rw [h2]; exact hs
    exact h1.trans h3
  · show ((shuffle l).take (testCount l.length)).length = _
    rw [List.length_take, hlen]
    omega
  · show ((shuffle l).drop (testCount l.length)).length = _
    rw [List.length_drop, hlen]
  · intro hnd
    have hsn : (shuffle l).Nodup := hs.nodup_iff.mpr hnd
    rw [← List.take_append_drop (testCount l.length) (shuffle l),
      List.nodup_append] at hsn
    intro a ha hb
    exact hsn.2.2 hb ha

/-- Claim C5: The three classifiers are trained only on the training
portion of an 80/20 split of the cleaned labeled dataset (each `fit` is
applied to the vectorized training portion and its labels), every
evaluation metric is computed on the held-out 20% test portion (each
accuracy is `accuracy_score` of the test labels against the test-set
predictions of that model), and the two portions are disjoint (on a
duplicate-free dataset) and together partition the cleaned dataset. -/
theorem split_partition_and_training_isolation {α β : Type} (P : ModelParams)
    (data : List (RawRow α)) (newRaw : List (NewRow β)) (dt : String)
    (hshuffle : ∀ (s : Nat) (l : List (String × PyVal)), (P.shuffle s l).Perm l) :
    ((run P data newRaw dt).splitTrain ++ (run P data newRaw dt).splitTest).Perm
      (run P data newRaw dt).pairs ∧
    (run P data newRaw dt).splitTest.length =
      testCount (run P data newRaw dt).pairs.length ∧
    (run P data newRaw dt).splitTrain.length =
      (run P data newRaw dt).pairs.length -
        testCount (run P data newRaw dt).pairs.length ∧
    ((run P data newRaw dt).pairs.Nodup →
      (run P data newRaw dt).splitTrain.Disjoint (run P data newRaw dt).splitTest) ∧
    (run P data newRaw dt).X_train = (run P data newRaw dt).splitTrain.map Prod.fst ∧
    (run P data newRaw dt).y_train = (run P data newRaw dt).splitTrain.map Prod.snd ∧
    (run P data newRaw dt).X_test = (run P data newRaw dt).splitTest.map Prod.fst ∧
    (run P data newRaw dt).y_test = (run P data newRaw dt).splitTest.map Prod.snd ∧
    (run P data newRaw dt).classifier =
      P.fitNB (run P data newRaw dt).X_train_vectorized (run P data newRaw dt).y_train ∧
    (run P data newRaw dt).rf_classifier =
      P.fitRF 42 (run P data newRaw dt).X_train_vectorized (run P data newRaw dt).y_train ∧
    (run P data newRaw dt).svm_classifier =
      P.fitSVM 42 (run P data newRaw dt).X_train_vectorized (run P data newRaw dt).y_train ∧
    (run P data newRaw dt).predictions =
      (run P data newRaw dt).X_test_vectorized.map (run P data newRaw dt).classifier ∧
    (run P data newRaw dt).rf_predictions =
      (run P data newRaw dt).X_test_vectorized.map (run P data newRaw dt).rf_classifier ∧
    (run P data newRaw dt).svm_predictions =
      (run P data newRaw dt).X_test_vectorized.map (run P data newRaw dt).svm_classifier ∧
    (run P data newRaw dt).accuracy =
      accuracy_score (run P data newRaw dt).y_test (run P data newRaw dt).predictions ∧
    (run P data newRaw dt).rf_accuracy =
      accuracy_score (run P data newRaw dt).y_test (run P data newRaw dt).rf_predictions ∧
    (run P data newRaw dt).svm_accuracy =
      accuracy_score (run P data newRaw dt).y_test (run P data newRaw dt).svm_predictions := by
  obtain ⟨hp, hte, htr, hdis⟩ :=
    train_test_split_spec (P.shuffle 42) (run P data newRaw dt).pairs
      (hshuffle 42 (run P data newRaw dt).pairs)
  exact ⟨hp, hte, htr, hdis, rfl, rfl, rfl, rfl, rfl, rfl, rfl, rfl, rfl, rfl,
    rfl, rfl, rfl⟩

theorem split_partition_and_training_isolation_witness :
    (∀ (s : Nat) (l : List (String × PyVal)), ((demoParams.shuffle s l).Perm l)) ∧
    ((run demoParams demoData demoNew "t").splitTrain ++
        (run demoParams demoData demoNew "t").splitTest).Perm
      (run demoParams demoData demoNew "t").pairs :=
  ⟨fun _ l => List.Perm.refl l,
    (split_partition_and_training_isolation demoParams demoData demoNew "t"
      (fun _ l => List.Perm.refl l)).1⟩

/-- Claim C8: Vectorization maps every processed name (training, test and
new data alike) to a numeric vector of one fixed length, determined by the
vocabulary fitted on the training set only; each entry counts the
occurrences of the corresponding vocabulary token in that name, and tokens
absent from the training vocabulary contribute nothing (two documents
whose vocabulary-token counts agree vectorize identically). -/
theorem vectorization_counts_over_training_vocabulary {α β : Type}
    (P : ModelParams) (data : List (RawRow α)) (newRaw : List (NewRow β))
    (dt : String) (cvTok : String → List String) (trainDocs : List String)
    (doc doc2 : String) :
    ((CountVectorizer.fit cvTok trainDocs).transform cvTok doc).length =
      (CountVectorizer.fit cvTok trainDocs).vocabulary.length ∧
    (∀ i : Fin (CountVectorizer.fit cvTok trainDocs).vocabulary.length,
      ((CountVectorizer.fit cvTok trainDocs).transform cvTok doc).getD i.1 0 =
        (cvTok doc).count ((CountVectorizer.fit cvTok trainDocs).vocabulary.get i)) ∧
    ((∀ t ∈ (CountVectorizer.fit cvTok trainDocs).vocabulary,
        (cvTok doc).count t = (cvTok doc2).count t) →
      (CountVectorizer.fit cvTok trainDocs).transform cvTok doc =
        (CountVectorizer.fit cvTok trainDocs).transform cvTok doc2) ∧
    (run P data newRaw dt).vectorizer =
      CountVectorizer.fit P.cvTok (run P data newRaw dt).X_train ∧
    (run P data newRaw dt).X_train_vectorized =
      (run P data newRaw dt).X_train.map
        ((run P data newRaw dt).vectorizer.transform P.cvTok) ∧
    (run P data newRaw dt).X_test_vectorized =
      (run P data newRaw dt).X_test.map
        ((run P data newRaw dt).vectorizer.transform P.cvTok) ∧
    (run P data newRaw dt).new_data_vectorized =
      (run P data newRaw dt).processed_name_new.map
        ((run P data newRaw dt).vectorizer.transform P.cvTok) ∧
    (∀ v ∈ (run P data newRaw dt).X_train_vectorized,
      v.length = (run P data newRaw dt).vectorizer.vocabulary.length) ∧
    (∀ v ∈ (run P data newRaw dt).X_test_vectorized,
      v.length = (run P data newRaw dt).vectorizer.vocabulary.length) ∧
    (∀ v ∈ (run P data newRaw dt).new_data_vectorized,
      v.length = (run P data newRaw dt).vectorizer.vocabulary.length) := by
  have hlen : ∀ (M : CountVectorizerModel) (tok : String → List String) (d : String),
      (M.transform tok d).length = M.vocabulary.length := by
    intro M tok d
    simp [CountVectorizerModel.transform]
  have hmem : ∀ (l : List String) (v : List Nat),
      v ∈ l.map ((run P data newRaw dt).vectorizer.transform P.cvTok) →
      v.length = (run P data newRaw dt).vectorizer.vocabulary.length := by
    intro l v hv
    obtain ⟨d, -, rfl⟩ := List.mem_map.mp hv
    exact hlen _ _ _
  refine ⟨hlen _ _ _, ?_, ?_, rfl, rfl, rfl, rfl, hmem _, hmem _, hmem _⟩
  · intro i
    have hb : i.1 < ((CountVectorizer.fit cvTok trainDocs).transform cvTok doc).length := by
      rw [hlen]; exact i.2
    rw [List.getD_eq_getElem _ _ hb]
    simp [CountVectorizerModel.transform, List.getElem_map, List.get_eq_getElem]
  · intro hagree
    unfold CountVectorizerModel.transform
    exact List.map_congr_left hagree

theorem vectorization_counts_over_training_vocabulary_witness :
    ((∀ t ∈ (CountVectorizer.fit (fun s => if s = "" then [] else [s])
        ["ab", "cd"]).vocabulary,
      ((fun s : String => if s = "" then [] else [s]) "xy").count t =
        ((fun s : String => if s = "" then [] else [s]) "zw").count t)) ∧
    (CountVectorizer.fit (fun s => if s = "" then [] else [s]) ["ab", "cd"]).transform
        (fun s => if s = "" then [] else [s]) "xy" =
      (CountVectorizer.fit (fun s => if s = "" then [] else [s]) ["ab", "cd"]).transform
        (fun s => if s = "" then [] else [s]) "zw" :=
  ⟨by decide,
    ((vectorization_counts_over_training_vocabulary demoParams demoData demoNew "t"
        (fun s => if s = "" then [] else [s]) ["ab", "cd"] "xy" "zw").2.2.1
      (by decide))⟩

/-- Claim C4: Every ethnicity label the pipeline emits as a prediction is
one of the four classes Malay, Indian, Chinese, Others, under the
preconditions that every label in the cleaned training data is one of
those four classes, that each classifier predicts only labels present in
its (nonempty) training labels, that the seeded shuffle is a permutation,
and that the training portion of the split is nonempty. -/
theorem emitted_labels_among_four_classes {α β : Type} (P : ModelParams)
    (data : List (RawRow α)) (newRaw : List (NewRow β)) (dt : String)
    (hshuffle : ∀ (s : Nat) (l : List (String × PyVal)), (P.shuffle s l).Perm l)
    (hNB : ∀ X y x, y ≠ [] → P.fitNB X y x ∈ y)
    (hRF : ∀ s X y x, y ≠ [] → P.fitRF s X y x ∈ y)
    (hSVM : ∀ s X y x, y ≠ [] → P.fitSVM s X y x ∈ y)
    (hlabels : ∀ r ∈ cleanData data, r.Ethnicity ∈ fourClasses)
    (htrain : testCount (cleanData data).length < (cleanData data).length) :
    (∀ p ∈ (run P data newRaw dt).predictions, p ∈ fourClasses) ∧
    (∀ p ∈ (run P data newRaw dt).rf_predictions, p ∈ fourClasses) ∧
    (∀ p ∈ (run P data newRaw dt).svm_predictions, p ∈ fourClasses) ∧
    (∀ p ∈ (run P data newRaw dt).new_predictions_nb, p ∈ fourClasses) ∧
    (∀ p ∈ (run P data newRaw dt).new_predictions_rf, p ∈ fourClasses) ∧
    (∀ p ∈ (run P data newRaw dt).new_predictions_svm, p ∈ fourClasses) ∧
    (∀ f ∈ (run P data newRaw dt).outputFiles, ∀ row ∈ f.rows,
      row.Predicted_Ethnicity_NB ∈ fourClasses ∧
      row.Predicted_Ethnicity_RF ∈ fourClasses ∧
      row.Predicted_Ethnicity_SVM ∈ fourClasses) := by
  have hy : ∀ v ∈ (run P data newRaw dt).y_train, v ∈ fourClasses := by
    intro v hv
    have e : (run P data newRaw dt).y_train =
        (run P data newRaw dt).splitTrain.map Prod.snd := rfl
    rw [e] at hv
    obtain ⟨⟨q1, q2⟩, hq, rfl⟩ := List.mem_map.mp hv
    have e2 : (run P data newRaw dt).splitTrain =
        (P.shuffle 42 (run P data newRaw dt).pairs).drop
          (testCount (run P data newRaw dt).pairs.length) := rfl
    rw [e2] at hq
    have hq2 : (q1, q2) ∈ P.shuffle 42 (run P data newRaw dt).pairs :=
      List.mem_of_mem_drop hq
    have hq3 : (q1, q2) ∈ (run P data newRaw dt).pairs :=
      ((hshuffle 42 _).mem_iff).mp hq2
    have e3 : (run P data newRaw dt).pairs =
        ((cleanData data).map (fun r => preprocess_text P.text r.ShippingName)).zip
          ((cleanData data).map (fun r => r.Ethnicity)) := rfl
    rw [e3] at hq3
    have h4 : q2 ∈ (cleanData data).map (fun r => r.Ethnicity) :=
      (List.of_mem_zip hq3).2
    obtain ⟨r, hr, hre⟩ := List.mem_map.mp h4
    exact hre ▸ hlabels r hr
  have hplen : (run P data newRaw dt).pairs.length = (cleanData data).length := by
    have e3 : (run P data newRaw dt).pairs =
        ((cleanData data).map (fun r => preprocess_text P.text r.ShippingName)).zip
          ((cleanData data).map (fun r => r.Ethnicity)) := rfl
    rw [e3, List.length_zip]
    simp
  have hyne : (run P data newRaw dt).y_train ≠ [] := by
    have e : (run P data newRaw dt).y_train =
        ((P.shuffle 42 (run P data newRaw dt).pairs).drop
          (testCount (run P data newRaw dt).pairs.length)).map Prod.snd := rfl
    rw [← List.length_pos, e, List.length_map, List.length_drop,
      (hshuffle 42 _).length_eq, hplen]
    omega
  have hclsNB : ∀ v, (run P data newRaw dt).classifier v ∈ fourClasses :=
    fun v => hy _ (hNB _ _ v hyne)
  have hclsRF : ∀ v, (run P data newRaw dt).rf_classifier v ∈ fourClasses :=
    fun v => hy _ (hRF 42 _ _ v hyne)
  have hclsSVM : ∀ v, (run P data newRaw dt).svm_classifier v ∈ fourClasses :=
    fun v => hy _ (hSVM 42 _ _ v hyne)
  have hmap : ∀ (cl : List Nat → PyVal), (∀ v, cl v ∈ fourClasses) →
      ∀ (L : List (List Nat)), ∀ p ∈ L.map cl, p ∈ fourClasses := by
    intro cl hcl L p hp
    obtain ⟨x, -, rfl⟩ := List.mem_map.mp hp
    exact hcl x
  have hfinal : ∀ raw : List PyVal, (∀ p ∈ raw, p ∈ fourClasses) →
      ∀ p ∈ applyExceptionalCases (run P data newRaw dt).processed_name_new raw,
        p ∈ fourClasses := by
    intro raw hraw p hp
    rcases applyExceptionalCases_mem _ _ p hp with h | h
    · rw [h]; simp [fourClasses]
    · exact hraw p h
  have hnbRaw : ∀ p ∈ (run P data newRaw dt).new_predictions_nb_raw,
      p ∈ fourClasses := hmap _ hclsNB _
  have hrfRaw : ∀ p ∈ (run P data newRaw dt).new_predictions_rf_raw,
      p ∈ fourClasses := hmap _ hclsRF _
  have hsvmRaw : ∀ p ∈ (run P data newRaw dt).new_predictions_svm_raw,
      p ∈ fourClasses := hmap _ hclsSVM _
  have hnbF : ∀ p ∈ (run P data newRaw dt).new_predictions_nb, p ∈ fourClasses :=
    hfinal _ hnbRaw
  have hrfF : ∀ p ∈ (run P data newRaw dt).new_predictions_rf, p ∈ fourClasses :=
    hfinal _ hrfRaw
  have hsvmF : ∀ p ∈ (run P data newRaw dt).new_predictions_svm, p ∈ fourClasses :=
    hfinal _ hsvmRaw
  refine ⟨hmap _ hclsNB _, hmap _ hclsRF _, hmap _ hclsSVM _, hnbF, hrfF, hsvmF, ?_⟩
  intro f hf row hrow
  rw [run_outputFiles_eq, List.mem_singleton] at hf
  subst hf
  obtain ⟨⟨xr, xp⟩, hx, rfl⟩ := List.mem_map.mp hrow
  obtain ⟨p1, p2, p3⟩ := xp
  have h2 := (List.of_mem_zip hx).2
  have h3 := List.of_mem_zip h2
  have h4 := List.of_mem_zip h3.2
  exact ⟨hnbF p1 h3.1, hrfF p2 h4.1, hsvmF p3 h4.2⟩

theorem emitted_labels_among_four_classes_witness :
    (∀ r ∈ cleanData demoData, r.Ethnicity ∈ fourClasses) ∧
    testCount (cleanData demoData).length < (cleanData demoData).length ∧
    (∀ p ∈ (run demoParams demoData demoNew "t").new_predictions_nb,
      p ∈ fourClasses) := by
  refine ⟨by decide, by decide, ?_⟩
  refine (emitted_labels_among_four_classes demoParams demoData demoNew "t"
    (fun _ l => List.Perm.refl l) ?_ ?_ ?_ (by decide) (by decide)).2.2.2.1
  · intro X y x hy
    cases y with
    | nil => exact absurd rfl hy
    | cons a t => exact List.mem_cons_self a t
  · intro s X y x hy
    cases y with
    | nil => exact absurd rfl hy
    | cons a t => exact List.mem_cons_self a t
  · intro s X y x hy
    cases y with
    | nil => exact absurd rfl hy
    | cons a t => exact List.mem_cons_self a t

end EthnicityPredictions
